import Mathlib

/-
Verification of the mrvn-bot playback-queue frontend and guild registry.

The development shallowly embeds the two source files of the repository:
`mrvn-front-discord/src/frontend.rs` (the command handlers and the
playback-ended handler) and `mrvn-model/src/app_model.rs` (the per-guild
registry).  The GuildModel operations, the speaker component, the presence
lookup and the song resolver are external to these files; the handlers are
therefore embedded as pure functions of the responses those collaborators
return (collected in an `Env` record), and every call a handler makes is
recorded in an explicit event trace, in source order.
-/

set_option autoImplicit false
set_option linter.unusedVariables false
set_option linter.unnecessarySeqFocus false

namespace Mrvn

/-- Song metadata as cloned by the frontend: title, url and queuing user. -/
structure SongMetadata where
  title : String
  url : String
  user_id : Nat
deriving DecidableEq

/-- A playable song; the frontend only ever inspects its metadata. -/
structure Song where
  metadata : SongMetadata
deriving DecidableEq

/-- Result of `GuildModel::next_channel_entry`. -/
inductive NextEntry where
  | Entry (song : Song)
  | AlreadyPlaying
  | NoneAvailable
deriving DecidableEq

/-- Result of `GuildModel::vote_for_skip`. -/
inductive VoteStatus where
  | Success
  | AlreadyVoted
  | NeedsMoreVotes (count : Nat)
  | NothingPlaying
deriving DecidableEq

/-- The vote discriminator passed to `vote_for_skip`. -/
inductive VoteType where
  | Skip
  | Stop
deriving DecidableEq

/-- Result of `GuildModel::replace_entry`. -/
inductive ReplaceStatus where
  | Queued
  | ReplacedInQueue (old : Song)
  | ReplacedCurrent (channel_id : Nat)
deriving DecidableEq

/-- How `Song::load` resolved, when it failed. -/
inductive LoadError where
  | NoSongsFound
  | OtherFailure
deriving DecidableEq

/-- The response messages the handlers build (`message.rs` variants used by
`frontend.rs`). -/
inductive ResponseMessage where
  | NoMatchingSongsError
  | Queued (song_title song_url : String)
  | QueuedNoSpeakers (song_title song_url : String)
  | NotInVoiceChannelError
  | AlreadyPlayingError (voice_channel_id : Nat)
  | NothingIsQueuedError (voice_channel_id : Nat)
  | Replaced (old_song_title old_song_url new_song_title new_song_url : String)
  | ReplaceSkipped (new_song_title new_song_url old_song_title old_song_url : String)
      (voice_channel_id : Nat)
  | NothingIsPlayingError (voice_channel_id : Nat)
  | Paused (song_title song_url : String) (voice_channel_id user_id : Nat)
  | Skipped (song_title song_url : String) (voice_channel_id user_id : Nat)
  | SkipAlreadyVotedError (song_title song_url : String) (voice_channel_id : Nat)
  | SkipMoreVotesNeeded (song_title song_url : String) (voice_channel_id count : Nat)
  | Stopped (song_title song_url : String) (voice_channel_id user_id : Nat)
  | StopAlreadyVotedError (voice_channel_id : Nat)
  | StopMoreVotesNeeded (voice_channel_id count : Nat)
deriving DecidableEq

/-- The action messages the handlers build. -/
inductive ActionMessage where
  | PlayingResponse (song_title song_url : String) (voice_channel_id : Nat)
  | Playing (song_title song_url : String) (voice_channel_id user_id : Nat)
  | NoSpeakersError (voice_channel_id : Nat)
  | UnknownError
  | Finished (voice_channel_id : Nat)
deriving DecidableEq

/-- An outbound message descriptor. -/
inductive Message where
  | Response (m : ResponseMessage)
  | Action (m : ActionMessage)
deriving DecidableEq

/-- The error type of `handle_*_command` (`crate::error::Error` variants the
embedded code constructs; external collaborator failures are collapsed into
`Backend` and `DelegateFailed`). -/
inductive Error where
  | NoGuild
  | UnknownCommand (name : String)
  | Backend
  | DelegateFailed
  | ModelPlayingSpeakerNotDesync
deriving DecidableEq

/-- One call the frontend makes to the guild model, the speaker component or
the messaging layer, recorded in program order. -/
inductive Event where
  | PushEntry (user_id : Nat) (song : Song)
  | NextChannelEntry (channel_id : Nat)
  | NextChannelEntryFinished (channel_id : Nat)
  | ReplaceEntry (user_id : Nat) (maybe_channel_id : Option Nat)
  | VoteForSkip (kind : VoteType) (channel_id user_id : Nat)
  | SetChannelStopped (channel_id : Nat)
  | IsChannelStopped (channel_id : Nat)
  | SetMessageChannel (channel_id : Option Nat)
  | SpeakerFindToPlay (channel_id : Nat)
  | SpeakerFindActive (channel_id : Nat)
  | SpeakerPlay (channel_id : Nat) (song : Song)
  | SpeakerStop (channel_id : Nat)
  | SpeakerPause (channel_id : Nat)
  | SpeakerUnpause (channel_id : Nat)
  | EndedPlay (channel_id : Nat) (song : Song)
  | EndedStop (channel_id : Nat)
  | SendInteraction (msgs : List Message)
  | SendToChannel (channel_id : Nat) (msgs : List Message)
  | LockAcquire (r : Nat)
  | LockRelease (r : Nat)
deriving DecidableEq

/-- True exactly on the lock acquisition/release events. -/
def Event.isLock : Event → Bool
  | .LockAcquire _ => true
  | .LockRelease _ => true
  | .PushEntry _ _ => false
  | .NextChannelEntry _ => false
  | .NextChannelEntryFinished _ => false
  | .ReplaceEntry _ _ => false
  | .VoteForSkip _ _ _ => false
  | .SetChannelStopped _ => false
  | .IsChannelStopped _ => false
  | .SetMessageChannel _ => false
  | .SpeakerFindToPlay _ => false
  | .SpeakerFindActive _ => false
  | .SpeakerPlay _ _ => false
  | .SpeakerStop _ => false
  | .SpeakerPause _ => false
  | .SpeakerUnpause _ => false
  | .EndedPlay _ _ => false
  | .EndedStop _ => false
  | .SendInteraction _ => false
  | .SendToChannel _ _ => false

/-- The responses of the external collaborators during one handler run:
whether the presence snapshot (`ModelDelegate::new`) succeeds, the user's
voice channel, how the song resolved, the results the guild model returns,
the speaker lookups and whether each speaker operation succeeds. -/
structure Env where
  delegateOk : Bool
  userChannel : Option Nat
  songLoad : Except LoadError Song
  voteStatus : VoteStatus
  nextEntry : NextEntry
  nextFinished : Option Song
  replaceStatus : ReplaceStatus
  active : Option (Bool × SongMetadata)
  findToPlay : Bool
  playOk : Bool
  stopOk : Bool
  pauseOk : Bool
  unpauseOk : Bool

/-- Embedding of `Frontend::handle_queue_play_command` (frontend.rs:191-293). -/
def handle_queue_play_command (user_id : Nat) (env : Env) :
    List Event × Except Error (List Message) :=
  match env.songLoad with
  | .error .NoSongsFound => ([], .ok [.Response .NoMatchingSongsError])
  | .error .OtherFailure => ([], .error .Backend)
  | .ok song =>
    if env.delegateOk then
      let song_metadata := song.metadata
      let evs1 := [Event.PushEntry user_id song]
      match env.userChannel with
      | none => (evs1, .ok [.Response (.Queued song_metadata.title song_metadata.url)])
      | some channel_id =>
        let evs2 := evs1 ++ [Event.SpeakerFindToPlay channel_id]
        if env.findToPlay then
          let evs3 := evs2 ++ [Event.NextChannelEntry channel_id]
          match env.nextEntry with
          | .AlreadyPlaying =>
            (evs3, .ok [.Response (.Queued song_metadata.title song_metadata.url)])
          | .NoneAvailable =>
            (evs3, .ok [.Response (.Queued song_metadata.title song_metadata.url)])
          | .Entry next_song =>
            let next_metadata := next_song.metadata
            (evs3 ++ [Event.SpeakerPlay channel_id next_song],
              if env.playOk then
                if next_metadata.url = song_metadata.url then
                  .ok [.Action (.PlayingResponse song_metadata.title song_metadata.url
                    channel_id)]
                else
                  .ok [.Response (.Queued song_metadata.title song_metadata.url),
                       .Action (.Playing next_metadata.title next_metadata.url channel_id
                         next_metadata.user_id)]
              else .error .Backend)
        else
          (evs2, .ok [.Response (.QueuedNoSpeakers song_metadata.title song_metadata.url)])
    else ([], .error .DelegateFailed)

/-- Embedding of `Frontend::handle_unpause_command` (frontend.rs:295-364). -/
def handle_unpause_command (user_id : Nat) (env : Env) :
    List Event × Except Error (List Message) :=
  if env.delegateOk then
    match env.userChannel with
    | none => ([], .ok [.Response .NotInVoiceChannelError])
    | some channel_id =>
      let evs1 := [Event.SpeakerFindActive channel_id]
      match env.active with
      | some (is_paused, active_metadata) =>
        if is_paused then
          (evs1 ++ [Event.SpeakerUnpause channel_id],
            if env.unpauseOk then
              .ok [.Action (.Playing active_metadata.title active_metadata.url channel_id
                active_metadata.user_id)]
            else .error .Backend)
        else
          (evs1, .ok [.Response (.AlreadyPlayingError channel_id)])
      | none =>
        let evs2 := evs1 ++ [Event.SpeakerFindToPlay channel_id]
        if env.findToPlay then
          let evs3 := evs2 ++ [Event.NextChannelEntry channel_id]
          match env.nextEntry with
          | .Entry next_song =>
            (evs3 ++ [Event.SpeakerPlay channel_id next_song],
              if env.playOk then
                .ok [.Action (.Playing next_song.metadata.title next_song.metadata.url
                  channel_id next_song.metadata.user_id)]
              else .error .Backend)
          | .AlreadyPlaying => (evs3, .ok [.Response (.NothingIsQueuedError channel_id)])
          | .NoneAvailable => (evs3, .ok [.Response (.NothingIsQueuedError channel_id)])
        else
          (evs2, .ok [.Action (.NoSpeakersError channel_id)])
  else ([], .error .DelegateFailed)

/-- Embedding of `Frontend::handle_replace_command` (frontend.rs:366-473). -/
def handle_replace_command (user_id : Nat) (env : Env) :
    List Event × Except Error (List Message) :=
  match env.songLoad with
  | .error .NoSongsFound => ([], .ok [.Response .NoMatchingSongsError])
  | .error .OtherFailure => ([], .error .Backend)
  | .ok song =>
    if env.delegateOk then
      let song_metadata := song.metadata
      let maybe_channel_id := env.userChannel
      let evs1 := [Event.ReplaceEntry user_id maybe_channel_id]
      match env.replaceStatus with
      | .Queued =>
        (evs1, .ok [.Response (.Queued song_metadata.title song_metadata.url)])
      | .ReplacedInQueue old_song =>
        (evs1, .ok [.Response (.Replaced old_song.metadata.title old_song.metadata.url
          song_metadata.title song_metadata.url)])
      | .ReplacedCurrent channel_id =>
        let evs2 := evs1 ++ [Event.SpeakerFindActive channel_id]
        match env.active with
        | none => (evs2, .error .ModelPlayingSpeakerNotDesync)
        | some (_, playing_metadata) =>
          let evs3 := evs2 ++ [Event.NextChannelEntryFinished channel_id]
          match env.nextFinished with
          | none => (evs3, .ok [.Response (.NothingIsQueuedError channel_id)])
          | some next_song =>
            let next_metadata := next_song.metadata
            (evs3 ++ [Event.SpeakerPlay channel_id next_song],
              if env.playOk then
                if next_metadata.url = song_metadata.url then
                  .ok [.Action (.PlayingResponse song_metadata.title song_metadata.url
                    channel_id)]
                else
                  .ok [.Response (.ReplaceSkipped song_metadata.title song_metadata.url
                         playing_metadata.title playing_metadata.url channel_id),
                       .Action (.Playing next_metadata.title next_metadata.url channel_id
                         next_metadata.user_id)]
              else .error .Backend)
    else ([], .error .DelegateFailed)

/-- Embedding of `Frontend::handle_pause_command` (frontend.rs:475-514). -/
def handle_pause_command (user_id : Nat) (env : Env) :
    List Event × Except Error (List Message) :=
  if env.delegateOk then
    match env.userChannel with
    | none => ([], .ok [.Response .NotInVoiceChannelError])
    | some channel_id =>
      let evs1 := [Event.SpeakerFindActive channel_id]
      match env.active with
      | some (is_paused, active_metadata) =>
        if is_paused then
          (evs1, .ok [.Response (.NothingIsPlayingError channel_id)])
        else
          (evs1 ++ [Event.SpeakerPause channel_id],
            if env.pauseOk then
              .ok [.Response (.Paused active_metadata.title active_metadata.url channel_id
                active_metadata.user_id)]
            else .error .Backend)
      | none => (evs1, .ok [.Response (.NothingIsPlayingError channel_id)])
  else ([], .error .DelegateFailed)

/-- Embedding of `Frontend::handle_skip_command` (frontend.rs:516-571).  The
vote is cast before the speaker lookup, and the `(_, None)` arm of the match
is the desync error, exactly as in the source. -/
def handle_skip_command (user_id : Nat) (env : Env) :
    List Event × Except Error (List Message) :=
  if env.delegateOk then
    match env.userChannel with
    | none => ([], .ok [.Response .NotInVoiceChannelError])
    | some channel_id =>
      let evs1 := [Event.VoteForSkip .Skip channel_id user_id,
                   Event.SpeakerFindActive channel_id]
      match env.voteStatus, env.active with
      | .Success, some (_, active_metadata) =>
        (evs1 ++ [Event.SpeakerStop channel_id],
          if env.stopOk then
            .ok [.Response (.Skipped active_metadata.title active_metadata.url channel_id
              active_metadata.user_id)]
          else .error .Backend)
      | .AlreadyVoted, some (_, active_metadata) =>
        (evs1, .ok [.Response (.SkipAlreadyVotedError active_metadata.title
          active_metadata.url channel_id)])
      | .NeedsMoreVotes count, some (_, active_metadata) =>
        (evs1, .ok [.Response (.SkipMoreVotesNeeded active_metadata.title
          active_metadata.url channel_id count)])
      | .NothingPlaying, _ =>
        (evs1, .ok [.Response (.NothingIsPlayingError channel_id)])
      | _, none => (evs1, .error .ModelPlayingSpeakerNotDesync)
  else ([], .error .DelegateFailed)

/-- Embedding of `Frontend::handle_stop_command` (frontend.rs:573-626).  The
vote status is matched before the speaker lookup: only a `Success` consults
the speaker, and only the `Success`-with-active-speaker arm marks the channel
stopped, exactly as in the source. -/
def handle_stop_command (user_id : Nat) (env : Env) :
    List Event × Except Error (List Message) :=
  if env.delegateOk then
    match env.userChannel with
    | none => ([], .ok [.Response .NotInVoiceChannelError])
    | some channel_id =>
      let evs1 := [Event.VoteForSkip .Stop channel_id user_id]
      match env.voteStatus with
      | .Success =>
        let evs2 := evs1 ++ [Event.SpeakerFindActive channel_id]
        match env.active with
        | some (_, active_metadata) =>
          (evs2 ++ [Event.SetChannelStopped channel_id, Event.SpeakerStop channel_id],
            if env.stopOk then
              .ok [.Response (.Stopped active_metadata.title active_metadata.url channel_id
                active_metadata.user_id)]
            else .error .Backend)
        | none => (evs2, .error .ModelPlayingSpeakerNotDesync)
      | .AlreadyVoted => (evs1, .ok [.Response (.StopAlreadyVotedError channel_id)])
      | .NeedsMoreVotes count =>
        (evs1, .ok [.Response (.StopMoreVotesNeeded channel_id count)])
      | .NothingPlaying => (evs1, .ok [.Response (.NothingIsPlayingError channel_id)])
  else ([], .error .DelegateFailed)

/-- The parsed command, as dispatched by `handle_guild_command`
(frontend.rs:140-189): `play` with a search term is queue-play, `play`
without one is unpause. -/
inductive CommandData where
  | play (term : Option String)
  | replace (term : String)
  | pause
  | skip
  | stop
  | other (name : String)
deriving DecidableEq

/-- Embedding of `Frontend::handle_guild_command` (frontend.rs:140-189). -/
def handle_guild_command (user_id : Nat) (cmd : CommandData) (env : Env) :
    List Event × Except Error (List Message) :=
  match cmd with
  | .play (some _) => handle_queue_play_command user_id env
  | .play none => handle_unpause_command user_id env
  | .replace _ => handle_replace_command user_id env
  | .pause => handle_pause_command user_id env
  | .skip => handle_skip_command user_id env
  | .stop => handle_stop_command user_id env
  | .other name => ([], .error (.UnknownCommand name))

/-- Embedding of `Frontend::continue_channel_playback` (frontend.rs:655-697):
a stopped channel only receives the idle signal; otherwise the model is asked
for the next entry and the result is either played or the idle signal is
sent. -/
def continue_channel_playback (stopped : Bool) (channel_id : Nat) (env : Env) :
    List Event × Except Error (List Message) :=
  if stopped then
    ([Event.IsChannelStopped channel_id, Event.EndedStop channel_id], .ok [])
  else if env.delegateOk then
    match env.nextFinished with
    | some song =>
      ([Event.IsChannelStopped channel_id, Event.NextChannelEntryFinished channel_id,
        Event.EndedPlay channel_id song],
        if env.playOk then
          .ok [.Action (.Playing song.metadata.title song.metadata.url channel_id
            song.metadata.user_id)]
        else .error .Backend)
    | none =>
      ([Event.IsChannelStopped channel_id, Event.NextChannelEntryFinished channel_id,
        Event.EndedStop channel_id],
        .ok [.Action (.Finished channel_id)])
  else ([Event.IsChannelStopped channel_id], .error .DelegateFailed)

/-- Embedding of `Frontend::handle_playback_ended` (frontend.rs:628-653):
the resulting messages (or a generic error notice) go to the recorded
message channel, and are dropped when none is recorded. -/
def handle_playback_ended (stopped : Bool) (messageChannel : Option Nat)
    (channel_id : Nat) (env : Env) : List Event :=
  let run := continue_channel_playback stopped channel_id env
  match run.snd, messageChannel with
  | .ok msgs, some mc => run.fst ++ [Event.SendToChannel mc msgs]
  | .error _, some mc =>
    run.fst ++ [Event.SendToChannel mc [Message.Action ActionMessage.UnknownError]]
  | _, none => run.fst

/-- Association-list lookup used to state the registry's behaviour. -/
def lookupRef : List (Nat × Nat) → Nat → Option Nat
  | [], _ => none
  | (k, v) :: rest, g => if k = g then some v else lookupRef rest g

/-- Embedding of `AppModel` (app_model.rs:7-10): the guild registry.  The
`DashMap` of `Arc<Mutex<GuildModel>>` cells is modelled as an association
list from guild id to the identity of the allocated cell, together with an
allocation counter, so that "same underlying instance" is expressible as
equality of cell identities. -/
structure AppModel where
  entries : List (Nat × Nat)
  nextRef : Nat
deriving DecidableEq

/-- Embedding of `AppModel::new` (app_model.rs:13-18). -/
def AppModel.new : AppModel := ⟨[], 0⟩

/-- Embedding of `AppModel::get` (app_model.rs:20-24):
`entry(guild_id).or_insert_with(fresh GuildModel)`, then clone the handle. -/
def AppModel.get (m : AppModel) (guild_id : Nat) : Nat × AppModel :=
  match lookupRef m.entries guild_id with
  | some r => (r, m)
  | none => (m.nextRef, ⟨m.entries ++ [(guild_id, m.nextRef)], m.nextRef + 1⟩)

/-- Applying a sequence of `AppModel.get` calls (the registry's only
operation) in order. -/
def runGets : AppModel → List Nat → AppModel
  | m, [] => m
  | m, g :: gs => runGets (m.get g).snd gs

/-- Registry well-formedness: distinct guild keys, distinct cell identities,
and every identity below the allocation counter. -/
def AppModel.wf (m : AppModel) : Prop :=
  (∀ p ∈ m.entries, p.2 < m.nextRef)
  ∧ (m.entries.map Prod.snd).Nodup
  ∧ (m.entries.map Prod.fst).Nodup

/-- Embedding of `Frontend::handle_command_fallable` (frontend.rs:76-138):
the guild's model is looked up, its lock is taken, the message channel is set
to the invoking command's text channel, the command body runs, and on success
the resulting messages are sent as the interaction response — all before the
lock is released.  Returns the updated registry, the guild's new
`message_channel`, the event trace and the command's outcome. -/
def handle_command_fallable (app : AppModel) (messageChannelState : Option Nat)
    (guild_id message_channel_id user_id : Nat) (cmd : CommandData) (env : Env) :
    AppModel × Option Nat × List Event × Except Error Unit :=
  let r := (app.get guild_id).fst
  let app' := (app.get guild_id).snd
  let body := handle_guild_command user_id cmd env
  match body.snd with
  | .ok msgs =>
    (app', some message_channel_id,
      Event.LockAcquire r :: Event.SetMessageChannel (some message_channel_id) ::
        (body.fst ++ [Event.SendInteraction msgs, Event.LockRelease r]),
      .ok ())
  | .error e =>
    (app', some message_channel_id,
      Event.LockAcquire r :: Event.SetMessageChannel (some message_channel_id) ::
        (body.fst ++ [Event.LockRelease r]),
      .error e)

/-- One inbound command for a guild: its text channel, its user and its
payload, plus the collaborator responses observed while handling it. -/
structure CommandInput where
  message_channel_id : Nat
  user_id : Nat
  cmd : CommandData
  env : Env

/-- Running a sequence of commands for one guild, threading the registry and
the guild's `message_channel` through `handle_command_fallable`. -/
def runCommands (guild_id : Nat) :
    AppModel → Option Nat → List CommandInput → AppModel × Option Nat
  | app, mc, [] => (app, mc)
  | app, mc, ci :: rest =>
    let res := handle_command_fallable app mc guild_id ci.message_channel_id
      ci.user_id ci.cmd ci.env
    runCommands guild_id res.fst res.snd.fst rest

/-! Helper lemmas about the event traces of the handlers. -/

theorem handle_queue_play_command_no_lock (u : Nat) (env : Env) :
    ∀ e ∈ (handle_queue_play_command u env).fst, e.isLock = false := by
  rcases env with ⟨dOk, uch, sl, vs, ne, nf, rs, act, ftp, pOk, sOk, paOk, unOk⟩
  rcases sl with le | s
  · rcases le <;> simp [handle_queue_play_command]
  · rcases dOk <;> rcases uch with _ | c <;> rcases ftp <;> rcases ne with s2 | _ | _ <;>
      simp [handle_queue_play_command, Event.isLock]

theorem handle_unpause_command_no_lock (u : Nat) (env : Env) :
    ∀ e ∈ (handle_unpause_command u env).fst, e.isLock = false := by
  rcases env with ⟨dOk, uch, sl, vs, ne, nf, rs, act, ftp, pOk, sOk, paOk, unOk⟩
  rcases dOk <;> rcases uch with _ | c <;> rcases act with _ | ⟨b, m⟩ <;> rcases ftp <;>
    rcases ne with s2 | _ | _ <;> (try rcases b) <;>
    simp [handle_unpause_command, Event.isLock]

theorem handle_replace_command_no_lock (u : Nat) (env : Env) :
    ∀ e ∈ (handle_replace_command u env).fst, e.isLock = false := by
  rcases env with ⟨dOk, uch, sl, vs, ne, nf, rs, act, ftp, pOk, sOk, paOk, unOk⟩
  rcases sl with le | s
  · rcases le <;> simp [handle_replace_command]
  · rcases dOk <;> rcases rs with _ | old | ch <;> rcases act with _ | ⟨b, m⟩ <;>
      rcases nf with _ | s2 <;>
      simp [handle_replace_command, Event.isLock]

theorem handle_pause_command_no_lock (u : Nat) (env : Env) :
    ∀ e ∈ (handle_pause_command u env).fst, e.isLock = false := by
  rcases env with ⟨dOk, uch, sl, vs, ne, nf, rs, act, ftp, pOk, sOk, paOk, unOk⟩
  rcases dOk <;> rcases uch with _ | c <;> rcases act with _ | ⟨b, m⟩ <;> (try rcases b) <;>
    simp [handle_pause_command, Event.isLock]

theorem handle_skip_command_no_lock (u : Nat) (env : Env) :
    ∀ e ∈ (handle_skip_command u env).fst, e.isLock = false := by
  rcases env with ⟨dOk, uch, sl, vs, ne, nf, rs, act, ftp, pOk, sOk, paOk, unOk⟩
  rcases dOk <;> rcases uch with _ | c <;> rcases vs with _ | _ | n | _ <;>
    rcases act with _ | ⟨b, m⟩ <;>
    simp [handle_skip_command, Event.isLock]

theorem handle_stop_command_no_lock (u : Nat) (env : Env) :
    ∀ e ∈ (handle_stop_command u env).fst, e.isLock = false := by
  rcases env with ⟨dOk, uch, sl, vs, ne, nf, rs, act, ftp, pOk, sOk, paOk, unOk⟩
  rcases dOk <;> rcases uch with _ | c <;> rcases vs with _ | _ | n | _ <;>
    rcases act with _ | ⟨b, m⟩ <;>
    simp [handle_stop_command, Event.isLock]

theorem handle_guild_command_no_lock (u : Nat) (cmd : CommandData) (env : Env) :
    ∀ e ∈ (handle_guild_command u cmd env).fst, e.isLock = false := by
  rcases cmd with t | t | _ | _ | _ | nm
  · rcases t with _ | t
    · exact handle_unpause_command_no_lock u env
    · exact handle_queue_play_command_no_lock u env
  · exact handle_replace_command_no_lock u env
  · exact handle_pause_command_no_lock u env
  · exact handle_skip_command_no_lock u env
  · exact handle_stop_command_no_lock u env
  · simp [handle_guild_command]

theorem handle_queue_play_command_no_set_stopped (u c : Nat) (env : Env) :
    Event.SetChannelStopped c ∉ (handle_queue_play_command u env).fst := by
  rcases env with ⟨dOk, uch, sl, vs, ne, nf, rs, act, ftp, pOk, sOk, paOk, unOk⟩
  rcases sl with le | s
  · rcases le <;> simp [handle_queue_play_command]
  · rcases dOk <;> rcases uch with _ | ch <;> rcases ftp <;> rcases ne with s2 | _ | _ <;>
      simp [handle_queue_play_command]

theorem handle_unpause_command_no_set_stopped (u c : Nat) (env : Env) :
    Event.SetChannelStopped c ∉ (handle_unpause_command u env).fst := by
  rcases env with ⟨dOk, uch, sl, vs, ne, nf, rs, act, ftp, pOk, sOk, paOk, unOk⟩
  rcases dOk <;> rcases uch with _ | ch <;> rcases act with _ | ⟨b, m⟩ <;> rcases ftp <;>
    rcases ne with s2 | _ | _ <;> (try rcases b) <;>
    simp [handle_unpause_command]

theorem handle_replace_command_no_set_stopped (u c : Nat) (env : Env) :
    Event.SetChannelStopped c ∉ (handle_replace_command u env).fst := by
  rcases env with ⟨dOk, uch, sl, vs, ne, nf, rs, act, ftp, pOk, sOk, paOk, unOk⟩
  rcases sl with le | s
  · rcases le <;> simp [handle_replace_command]
  · rcases dOk <;> rcases rs with _ | old | ch <;> rcases act with _ | ⟨b, m⟩ <;>
      rcases nf with _ | s2 <;>
      simp [handle_replace_command]

theorem handle_pause_command_no_set_stopped (u c : Nat) (env : Env) :
    Event.SetChannelStopped c ∉ (handle_pause_command u env).fst := by
  rcases env with ⟨dOk, uch, sl, vs, ne, nf, rs, act, ftp, pOk, sOk, paOk, unOk⟩
  rcases dOk <;> rcases uch with _ | ch <;> rcases act with _ | ⟨b, m⟩ <;> (try rcases b) <;>
    simp [handle_pause_command]

theorem handle_skip_command_no_set_stopped (u c : Nat) (env : Env) :
    Event.SetChannelStopped c ∉ (handle_skip_command u env).fst := by
  rcases env with ⟨dOk, uch, sl, vs, ne, nf, rs, act, ftp, pOk, sOk, paOk, unOk⟩
  rcases dOk <;> rcases uch with _ | ch <;> rcases vs with _ | _ | n | _ <;>
    rcases act with _ | ⟨b, m⟩ <;>
    simp [handle_skip_command]

theorem handle_stop_command_set_stopped_mem (u c : Nat) (env : Env) :
    Event.SetChannelStopped c ∈ (handle_stop_command u env).fst →
    env.voteStatus = .Success ∧ env.userChannel = some c ∧ env.active.isSome = true := by
  rcases env with ⟨dOk, uch, sl, vs, ne, nf, rs, act, ftp, pOk, sOk, paOk, unOk⟩
  rcases dOk <;> rcases uch with _ | ch <;> rcases vs with _ | _ | n | _ <;>
    rcases act with _ | ⟨b, m⟩ <;>
    simp [handle_stop_command] <;> omega

/-! Helper lemmas about the registry. -/

theorem lookupRef_append_some (l l2 : List (Nat × Nat)) (g r : Nat)
    (h : lookupRef l g = some r) : lookupRef (l ++ l2) g = some r := by
  induction l with
  | nil => simp [lookupRef] at h
  | cons p rest ih =>
    rcases p with ⟨k, v⟩
    by_cases hk : k = g
    · subst hk
      simp [lookupRef] at h ⊢
      exact h
    · simp [lookupRef, hk] at h ⊢
      exact ih h

theorem lookupRef_append_self (l : List (Nat × Nat)) (g v : Nat)
    (h : lookupRef l g = none) : lookupRef (l ++ [(g, v)]) g = some v := by
  induction l with
  | nil => simp [lookupRef]
  | cons p rest ih =>
    rcases p with ⟨k, w⟩
    by_cases hk : k = g
    · subst hk
      simp [lookupRef] at h
    · simp [lookupRef, hk] at h ⊢
      exact ih h

theorem lookupRef_mem (l : List (Nat × Nat)) (g r : Nat)
    (h : lookupRef l g = some r) : (g, r) ∈ l := by
  induction l with
  | nil => simp [lookupRef] at h
  | cons p rest ih =>
    rcases p with ⟨k, v⟩
    by_cases hk : k = g
    · subst hk
      simp [lookupRef] at h
      simp [h]
    · simp [lookupRef, hk] at h
      exact List.mem_cons_of_mem _ (ih h)

theorem AppModel.get_preserves_lookup (m : AppModel) (g g' r' : Nat)
    (h : lookupRef m.entries g' = some r') :
    lookupRef ((m.get g).snd.entries) g' = some r' := by
  unfold AppModel.get
  cases hg : lookupRef m.entries g with
  | some r => simpa using h
  | none => simpa using lookupRef_append_some _ _ _ _ h

theorem runGets_preserves_lookup (gs : List Nat) (m : AppModel) (g' r' : Nat)
    (h : lookupRef m.entries g' = some r') :
    lookupRef ((runGets m gs).entries) g' = some r' := by
  induction gs generalizing m with
  | nil => simpa [runGets] using h
  | cons g rest ih =>
    simp only [runGets]
    exact ih _ (AppModel.get_preserves_lookup m g g' r' h)

theorem AppModel.get_of_lookup (m : AppModel) (g r : Nat)
    (h : lookupRef m.entries g = some r) : m.get g = (r, m) := by
  unfold AppModel.get
  simp [h]

theorem AppModel.get_fst_lookup (m : AppModel) (g : Nat) :
    lookupRef ((m.get g).snd.entries) g = some (m.get g).fst := by
  unfold AppModel.get
  cases hg : lookupRef m.entries g with
  | some r => simpa using hg
  | none => simpa using lookupRef_append_self _ _ _ hg

/-! Concrete inputs used by counterexamples and witnesses. -/

/-- A concrete song. -/
def songA : Song := ⟨⟨"t", "u", 1⟩⟩

/-- A baseline collaborator environment: presence snapshot succeeds, the user
is in no voice channel, the song search finds nothing, nothing is playing. -/
def envBase : Env :=
  ⟨true, none, .error .NoSongsFound, .NothingPlaying, .NoneAvailable, none, .Queued,
    none, false, false, false, false, false⟩

/-- Environment for the C1 counterexample (contents irrelevant: the channel
is stopped). -/
def envC1stop : Env := envBase

/-- Environment for the C1 witness: channel not stopped, queue empty. -/
def envC1go : Env := envBase

/-- Environment for the C2 witness. -/
def envC2 : Env := envBase

/-- Environment for the C6 witness: the song resolves and the user is in no
voice channel. -/
def envC6 : Env :=
  ⟨true, none, .ok songA, .NothingPlaying, .NoneAvailable, none, .Queued,
    none, false, false, false, false, false⟩

/-! The claims. -/

/-- Claim C1, counterexample: the spec says every playback-ended notification
produces exactly one `next_channel_entry_finished` call, but for a stopped
channel `continue_channel_playback` returns after the idle signal without
calling it at all (frontend.rs:663-667). -/
theorem C1_counterexample :
    Event.NextChannelEntryFinished 1 ∉ (continue_channel_playback true 1 envC1stop).fst
    ∧ (continue_channel_playback true 1 envC1stop).fst
        = [Event.IsChannelStopped 1, Event.EndedStop 1] := by
  exact ⟨by decide, rfl⟩

/-- Claim C1, amended: for every playback-ended notification on a channel
that is NOT marked stopped and whose presence snapshot succeeds, the response
is exactly one `next_channel_entry_finished` call for that channel, followed
by playing the returned entry when one is returned, or the explicit
idle/finished signal to the speaker when none is. -/
theorem C1_amended (c : Nat) (env : Env) (hd : env.delegateOk = true) :
    (env.nextFinished = none →
      continue_channel_playback false c env
        = ([Event.IsChannelStopped c, Event.NextChannelEntryFinished c, Event.EndedStop c],
           .ok [.Action (.Finished c)]))
    ∧ (∀ s, env.nextFinished = some s →
      (continue_channel_playback false c env).fst
        = [Event.IsChannelStopped c, Event.NextChannelEntryFinished c,
           Event.EndedPlay c s]) := by
  rcases env with ⟨dOk, uch, sl, vs, ne, nf, rs, act, ftp, pOk, sOk, paOk, unOk⟩
  subst hd
  constructor
  · intro h
    subst h
    rfl
  · intro s h
    subst h
    rfl

/-- Claim C1, witness for the amended statement at a concrete input. -/
theorem C1_witness :
    continue_channel_playback false 1 envC1go
      = ([Event.IsChannelStopped 1, Event.NextChannelEntryFinished 1, Event.EndedStop 1],
         .ok [.Action (.Finished 1)]) :=
  (C1_amended 1 envC1go rfl).1 rfl

/-- Claim C2: a playback-ended notification for a stopped channel issues only
the idle/stop signal to the speaker, produces no messages, and never invokes
`next_channel_entry_finished` (so nothing is dequeued or played). -/
theorem C2 (c : Nat) (env : Env) (mc : Option Nat) :
    continue_channel_playback true c env
      = ([Event.IsChannelStopped c, Event.EndedStop c], .ok [])
    ∧ Event.NextChannelEntryFinished c ∉ handle_playback_ended true mc c env
    ∧ (∀ s, Event.EndedPlay c s ∉ handle_playback_ended true mc c env) := by
  refine ⟨rfl, ?_, ?_⟩ <;> cases mc <;>
    simp [handle_playback_ended, continue_channel_playback]

/-- Claim C2, witness at a concrete input. -/
theorem C2_witness :
    continue_channel_playback true 2 envC2
      = ([Event.IsChannelStopped 2, Event.EndedStop 2], .ok []) :=
  (C2 2 envC2 (some 9)).1

/-- Claim C6: when the song of a play command resolves and the requesting
user is in no voice channel, the song is pushed onto that user's queue, the
result is a Queued response, and no speaker operation happens (the trace is
exactly the push). -/
theorem C6 (u : Nat) (s : Song) (env : Env)
    (hd : env.delegateOk = true) (hs : env.songLoad = .ok s)
    (hc : env.userChannel = none) :
    handle_queue_play_command u env
      = ([Event.PushEntry u s],
         .ok [.Response (.Queued s.metadata.title s.metadata.url)]) := by
  rcases env with ⟨dOk, uch, sl, vs, ne, nf, rs, act, ftp, pOk, sOk, paOk, unOk⟩
  subst hd
  subst hs
  subst hc
  rfl

/-- Claim C6, witness at a concrete input. -/
theorem C6_witness :
    handle_queue_play_command 1 envC6
      = ([Event.PushEntry 1 songA], .ok [.Response (.Queued "t" "u")]) :=
  C6 1 songA envC6 rfl rfl rfl

/-- A second concrete song. -/
def songB : Song := ⟨⟨"t2", "u2", 2⟩⟩

/-- Environment for the C3 witness: the user is in channel 1, the Stop vote
succeeds and a speaker is active there. -/
def envC3 : Env :=
  ⟨true, some 1, .error .NoSongsFound, .Success, .NoneAvailable, none, .Queued,
    some (false, ⟨"t", "u", 1⟩), false, false, false, false, false⟩

/-- Claim C3: across all commands, `set_channel_stopped` is called only by
the stop command, only when the Stop vote returns Success and the speaker
reports an active session in the user's channel; and a successful Skip vote
stops current playback without ever marking the channel stopped. -/
theorem C3 (u c : Nat) (cmd : CommandData) (env e2 : Env) (b : Bool) (m : SongMetadata)
    (hmem : Event.SetChannelStopped c ∈ (handle_guild_command u cmd env).fst)
    (h2d : e2.delegateOk = true) (h2c : e2.userChannel = some c)
    (h2v : e2.voteStatus = .Success) (h2a : e2.active = some (b, m)) :
    (cmd = .stop ∧ env.voteStatus = .Success ∧ env.userChannel = some c
      ∧ env.active.isSome = true)
    ∧ (Event.SpeakerStop c ∈ (handle_skip_command u e2).fst
      ∧ ∀ c2, Event.SetChannelStopped c2 ∉ (handle_skip_command u e2).fst) := by
  constructor
  · rcases cmd with t | t | _ | _ | _ | nm
    · rcases t with _ | t
      · exact absurd hmem (handle_unpause_command_no_set_stopped u c env)
      · exact absurd hmem (handle_queue_play_command_no_set_stopped u c env)
    · exact absurd hmem (handle_replace_command_no_set_stopped u c env)
    · exact absurd hmem (handle_pause_command_no_set_stopped u c env)
    · exact absurd hmem (handle_skip_command_no_set_stopped u c env)
    · exact ⟨rfl, handle_stop_command_set_stopped_mem u c env hmem⟩
    · simp [handle_guild_command] at hmem
  · constructor
    · rcases e2 with ⟨dOk, uch, sl, vs, ne, nf, rs, act, ftp, pOk, sOk, paOk, unOk⟩
      subst h2d
      subst h2c
      subst h2v
      subst h2a
      simp [handle_skip_command]
    · intro c2
      exact handle_skip_command_no_set_stopped u c2 e2

/-- Claim C3, witness at a concrete input where the stop command does mark
the channel stopped. -/
theorem C3_witness :
    Event.SpeakerStop 1 ∈ (handle_skip_command 1 envC3).fst :=
  (C3 1 1 .stop envC3 envC3 false ⟨"t", "u", 1⟩ (by decide) rfl rfl rfl rfl).2.1

/-- Environment for the C4 counterexample: the user is in channel 1, the
Stop vote returns AlreadyVoted, and the speaker reports no active session. -/
def envC4 : Env :=
  ⟨true, some 1, .error .NoSongsFound, .AlreadyVoted, .NoneAvailable, none, .Queued,
    none, false, false, false, false, false⟩

/-- Claim C4, counterexample: the claim says an AlreadyVoted stop vote with
no active speaker must fail with the desync error, but `handle_stop_command`
answers AlreadyVoted before ever consulting the speaker
(frontend.rs:606-611), returning a normal Ok status. -/
theorem C4_counterexample :
    (handle_stop_command 1 envC4).snd = .ok [.Response (.StopAlreadyVotedError 1)]
    ∧ (handle_stop_command 1 envC4).snd ≠ .error .ModelPlayingSpeakerNotDesync := by
  refine ⟨rfl, ?_⟩
  intro h
  exact Except.noConfusion h

/-- Claim C4, amended: a Skip vote returning Success, AlreadyVoted or
NeedsMoreVotes with no active speaker, a Stop vote returning Success with no
active speaker, and a replace that returns ReplacedCurrent with no active
speaker, all fail with ModelPlayingSpeakerNotDesync; a Stop vote returning
AlreadyVoted (or NeedsMoreVotes) answers with its normal status without
consulting the speaker. -/
theorem C4_amended (u c ch : Nat) (s : Song) (e1 e2 e3 e4 : Env)
    (h1d : e1.delegateOk = true) (h1c : e1.userChannel = some c)
    (h1a : e1.active = none) (h1v : e1.voteStatus ≠ .NothingPlaying)
    (h2d : e2.delegateOk = true) (h2c : e2.userChannel = some c)
    (h2a : e2.active = none) (h2v : e2.voteStatus = .Success)
    (h3d : e3.delegateOk = true) (h3s : e3.songLoad = .ok s)
    (h3r : e3.replaceStatus = .ReplacedCurrent ch) (h3a : e3.active = none)
    (h4d : e4.delegateOk = true) (h4c : e4.userChannel = some c)
    (h4a : e4.active = none) (h4v : e4.voteStatus = .AlreadyVoted) :
    (handle_skip_command u e1).snd = .error .ModelPlayingSpeakerNotDesync
    ∧ (handle_stop_command u e2).snd = .error .ModelPlayingSpeakerNotDesync
    ∧ (handle_replace_command u e3).snd = .error .ModelPlayingSpeakerNotDesync
    ∧ (handle_stop_command u e4).snd = .ok [.Response (.StopAlreadyVotedError c)] := by
  refine ⟨?_, ?_, ?_, ?_⟩
  · rcases e1 with ⟨dOk, uch, sl, vs, ne, nf, rs, act, ftp, pOk, sOk, paOk, unOk⟩
    subst h1d
    subst h1c
    subst h1a
    rcases vs with _ | _ | n | _
    · rfl
    · rfl
    · rfl
    · exact absurd rfl h1v
  · rcases e2 with ⟨dOk, uch, sl, vs, ne, nf, rs, act, ftp, pOk, sOk, paOk, unOk⟩
    subst h2d
    subst h2c
    subst h2a
    subst h2v
    rfl
  · rcases e3 with ⟨dOk, uch, sl, vs, ne, nf, rs, act, ftp, pOk, sOk, paOk, unOk⟩
    subst h3d
    subst h3s
    subst h3r
    subst h3a
    rfl
  · rcases e4 with ⟨dOk, uch, sl, vs, ne, nf, rs, act, ftp, pOk, sOk, paOk, unOk⟩
    subst h4d
    subst h4c
    subst h4a
    subst h4v
    rfl

/-- Environment for the C4 witness: skip vote Success, no active speaker. -/
def envC4a : Env :=
  ⟨true, some 1, .error .NoSongsFound, .Success, .NoneAvailable, none, .Queued,
    none, false, false, false, false, false⟩

/-- Environment for the C4 witness: replace hits ReplacedCurrent with no
active speaker. -/
def envC4b : Env :=
  ⟨true, some 1, .ok songA, .Success, .NoneAvailable, none, .ReplacedCurrent 2,
    none, false, false, false, false, false⟩

/-- Claim C4, witness for the amended statement at concrete inputs. -/
theorem C4_witness :
    (handle_skip_command 1 envC4a).snd = .error .ModelPlayingSpeakerNotDesync :=
  (C4_amended 1 1 2 songA envC4a envC4a envC4b envC4 rfl rfl rfl (by decide)
    rfl rfl rfl rfl rfl rfl rfl rfl rfl rfl rfl rfl).1

/-- Environment for the C5 witness, ReplacedInQueue branch. -/
def envC5a : Env :=
  ⟨true, some 3, .ok songA, .NothingPlaying, .NoneAvailable, none,
    .ReplacedInQueue songB, none, false, false, false, false, false⟩

/-- Environment for the C5 witness, Queued branch. -/
def envC5b : Env :=
  ⟨true, none, .ok songA, .NothingPlaying, .NoneAvailable, none, .Queued,
    none, false, false, false, false, false⟩

/-- Environment for the C5 witness, ReplacedCurrent branch: a speaker is
active in channel 3 and the model surfaces the replacement. -/
def envC5c : Env :=
  ⟨true, some 3, .ok songA, .NothingPlaying, .NoneAvailable, some songB,
    .ReplacedCurrent 3, some (false, ⟨"p", "pu", 2⟩), false, true, false, false, false⟩

/-- Claim C5: when the replace command's song resolves, ReplacedInQueue(old)
yields a Replaced message carrying exactly the old entry's metadata with no
playback events, Queued yields a Queued message with no playback events, and
ReplacedCurrent(C) (with the speaker active in C, which then returns an
entry) leads to `next_channel_entry_finished(C)` followed by playing the
returned entry on C's active speaker, replacing current playback. -/
theorem C5 (u ch : Nat) (s1 s2 s3 old next : Song) (pm : SongMetadata) (b : Bool)
    (e1 e2 e3 : Env)
    (h1d : e1.delegateOk = true) (h1s : e1.songLoad = .ok s1)
    (h1r : e1.replaceStatus = .ReplacedInQueue old)
    (h2d : e2.delegateOk = true) (h2s : e2.songLoad = .ok s2)
    (h2r : e2.replaceStatus = .Queued)
    (h3d : e3.delegateOk = true) (h3s : e3.songLoad = .ok s3)
    (h3r : e3.replaceStatus = .ReplacedCurrent ch)
    (h3a : e3.active = some (b, pm)) (h3n : e3.nextFinished = some next) :
    handle_replace_command u e1
      = ([Event.ReplaceEntry u e1.userChannel],
         .ok [.Response (.Replaced old.metadata.title old.metadata.url
           s1.metadata.title s1.metadata.url)])
    ∧ handle_replace_command u e2
      = ([Event.ReplaceEntry u e2.userChannel],
         .ok [.Response (.Queued s2.metadata.title s2.metadata.url)])
    ∧ (handle_replace_command u e3).fst
      = [Event.ReplaceEntry u e3.userChannel, Event.SpeakerFindActive ch,
         Event.NextChannelEntryFinished ch, Event.SpeakerPlay ch next] := by
  refine ⟨?_, ?_, ?_⟩
  · rcases e1 with ⟨dOk, uch, sl, vs, ne, nf, rs, act, ftp, pOk, sOk, paOk, unOk⟩
    subst h1d
    subst h1s
    subst h1r
    rfl
  · rcases e2 with ⟨dOk, uch, sl, vs, ne, nf, rs, act, ftp, pOk, sOk, paOk, unOk⟩
    subst h2d
    subst h2s
    subst h2r
    rfl
  · rcases e3 with ⟨dOk, uch, sl, vs, ne, nf, rs, act, ftp, pOk, sOk, paOk, unOk⟩
    subst h3d
    subst h3s
    subst h3r
    subst h3a
    subst h3n
    rfl

/-- Claim C5, witness at concrete inputs. -/
theorem C5_witness :
    (handle_replace_command 1 envC5c).fst
      = [Event.ReplaceEntry 1 (some 3), Event.SpeakerFindActive 3,
         Event.NextChannelEntryFinished 3, Event.SpeakerPlay 3 songB] :=
  (C5 1 3 songA songA songA songB songB ⟨"p", "pu", 2⟩ false envC5a envC5b envC5c
    rfl rfl rfl rfl rfl rfl rfl rfl rfl rfl rfl).2.2

/-- Environment for the C7 counterexample: the user is in channel 1, the
Skip vote returns AlreadyVoted, and the speaker reports no active session. -/
def envC7 : Env :=
  ⟨true, some 1, .error .NoSongsFound, .AlreadyVoted, .NoneAvailable, none, .Queued,
    none, false, false, false, false, false⟩

/-- Claim C7, counterexample: the user-already-voted rejection condition is
claimed to never produce an Err, but when the speaker reports no active
session `handle_skip_command` maps AlreadyVoted to the desync Err
(frontend.rs:569). -/
theorem C7_counterexample :
    envC7.voteStatus = .AlreadyVoted
    ∧ (handle_skip_command 1 envC7).snd = .error .ModelPlayingSpeakerNotDesync :=
  ⟨rfl, rfl⟩

/-- Claim C7, amended: provided the speaker reports an active session
whenever the vote tracker reports Success, AlreadyVoted or NeedsMoreVotes
(no desync), the user-input rejection conditions of skip, stop, pause and
unpause — user not in a voice channel, nothing playing, already voted, more
votes needed — produce an Ok result carrying the distinguishing response
message, never an Err. -/
theorem C7_amended (u c n : Nat) (m : SongMetadata) (e1 e2 e3 e4 : Env)
    (h1d : e1.delegateOk = true) (h1c : e1.userChannel = none)
    (h2d : e2.delegateOk = true) (h2c : e2.userChannel = some c)
    (h2v : e2.voteStatus = .NothingPlaying) (h2a : e2.active = none)
    (h3d : e3.delegateOk = true) (h3c : e3.userChannel = some c)
    (h3v : e3.voteStatus = .AlreadyVoted) (h3a : e3.active = some (true, m))
    (h4d : e4.delegateOk = true) (h4c : e4.userChannel = some c)
    (h4v : e4.voteStatus = .NeedsMoreVotes n) (h4a : e4.active = some (false, m)) :
    (handle_skip_command u e1).snd = .ok [.Response .NotInVoiceChannelError]
    ∧ (handle_stop_command u e1).snd = .ok [.Response .NotInVoiceChannelError]
    ∧ (handle_pause_command u e1).snd = .ok [.Response .NotInVoiceChannelError]
    ∧ (handle_unpause_command u e1).snd = .ok [.Response .NotInVoiceChannelError]
    ∧ (handle_skip_command u e2).snd = .ok [.Response (.NothingIsPlayingError c)]
    ∧ (handle_stop_command u e2).snd = .ok [.Response (.NothingIsPlayingError c)]
    ∧ (handle_pause_command u e2).snd = .ok [.Response (.NothingIsPlayingError c)]
    ∧ (handle_skip_command u e3).snd
        = .ok [.Response (.SkipAlreadyVotedError m.title m.url c)]
    ∧ (handle_stop_command u e3).snd = .ok [.Response (.StopAlreadyVotedError c)]
    ∧ (handle_pause_command u e3).snd = .ok [.Response (.NothingIsPlayingError c)]
    ∧ (handle_skip_command u e4).snd
        = .ok [.Response (.SkipMoreVotesNeeded m.title m.url c n)]
    ∧ (handle_stop_command u e4).snd = .ok [.Response (.StopMoreVotesNeeded c n)] := by
  rcases e1 with ⟨dOk1, uch1, sl1, vs1, ne1, nf1, rs1, act1, ftp1, pOk1, sOk1, paOk1, unOk1⟩
  rcases e2 with ⟨dOk2, uch2, sl2, vs2, ne2, nf2, rs2, act2, ftp2, pOk2, sOk2, paOk2, unOk2⟩
  rcases e3 with ⟨dOk3, uch3, sl3, vs3, ne3, nf3, rs3, act3, ftp3, pOk3, sOk3, paOk3, unOk3⟩
  rcases e4 with ⟨dOk4, uch4, sl4, vs4, ne4, nf4, rs4, act4, ftp4, pOk4, sOk4, paOk4, unOk4⟩
  subst h1d
  subst h1c
  subst h2d
  subst h2c
  subst h2v
  subst h2a
  subst h3d
  subst h3c
  subst h3v
  subst h3a
  subst h4d
  subst h4c
  subst h4v
  subst h4a
  exact ⟨rfl, rfl, rfl, rfl, rfl, rfl, rfl, rfl, rfl, rfl, rfl, rfl⟩

/-- Environment for the C7 witness: nothing playing in channel 1. -/
def envC7b : Env :=
  ⟨true, some 1, .error .NoSongsFound, .NothingPlaying, .NoneAvailable, none, .Queued,
    none, false, false, false, false, false⟩

/-- Environment for the C7 witness: already voted, paused speaker active. -/
def envC7c : Env :=
  ⟨true, some 1, .error .NoSongsFound, .AlreadyVoted, .NoneAvailable, none, .Queued,
    some (true, ⟨"t", "u", 1⟩), false, false, false, false, false⟩

/-- Environment for the C7 witness: more votes needed, speaker active. -/
def envC7d : Env :=
  ⟨true, some 1, .error .NoSongsFound, .NeedsMoreVotes 2, .NoneAvailable, none, .Queued,
    some (false, ⟨"t", "u", 1⟩), false, false, false, false, false⟩

/-- Claim C7, witness for the amended statement at concrete inputs. -/
theorem C7_witness :
    (handle_skip_command 1 envBase).snd = .ok [.Response .NotInVoiceChannelError] :=
  (C7_amended 1 1 2 ⟨"t", "u", 1⟩ envBase envC7b envC7c envC7d
    rfl rfl rfl rfl rfl rfl rfl rfl rfl rfl rfl rfl rfl rfl).1

theorem lookupRef_append_none_ne (l : List (Nat × Nat)) (g k v : Nat)
    (h : lookupRef l g = none) (hk : k ≠ g) :
    lookupRef (l ++ [(k, v)]) g = none := by
  induction l with
  | nil => simp [lookupRef, hk]
  | cons p rest ih =>
    rcases p with ⟨k2, v2⟩
    by_cases hk2 : k2 = g
    · subst hk2
      simp [lookupRef] at h
    · simp [lookupRef, hk2] at h ⊢
      exact ih h

/-- Claim C8: the registry's `get` is total; once a guild has a cell, a
repeated `get` returns the same cell and leaves the registry unchanged, the
cell survives the only operation the registry exposes (no removal), and
every later `get` for the same guild — after any further sequence of calls —
returns the same cell identity. -/
theorem C8 (m : AppModel) (g g2 r2 : Nat) (gs : List Nat)
    (h : lookupRef m.entries g2 = some r2) :
    (m.get g).snd.get g = ((m.get g).fst, (m.get g).snd)
    ∧ lookupRef ((m.get g).snd.entries) g2 = some r2
    ∧ lookupRef ((runGets m gs).entries) g2 = some r2
    ∧ ((runGets m gs).get g2).fst = r2 := by
  refine ⟨?_, ?_, ?_, ?_⟩
  · exact AppModel.get_of_lookup _ g _ (AppModel.get_fst_lookup m g)
  · exact AppModel.get_preserves_lookup m g g2 r2 h
  · exact runGets_preserves_lookup gs m g2 r2 h
  · rw [AppModel.get_of_lookup _ _ _ (runGets_preserves_lookup gs m g2 r2 h)]

/-- Claim C8, witness at a concrete registry. -/
theorem C8_witness :
    ((runGets ⟨[(7, 0)], 1⟩ [1, 2, 7]).get 7).fst = 0 :=
  (C8 ⟨[(7, 0)], 1⟩ 3 7 0 [1, 2, 7] (by decide)).2.2.2

/-- Claim C9: for every inbound command, the guild's lock is acquired before
any guild-model or speaker operation and released only after all of them
(the whole trace sits between the acquire and the release, and the body
contains no lock event); and on a well-formed registry, distinct guilds are
served by distinct lock cells, so commands for different guilds never
contend for the same lock. -/
theorem C9 (app : AppModel) (mc : Option Nat) (g1 g2 mcid u : Nat)
    (cmd : CommandData) (env : Env) (hwf : app.wf) (hne : g1 ≠ g2) :
    (∃ r mid,
      (handle_command_fallable app mc g1 mcid u cmd env).snd.snd.fst
        = Event.LockAcquire r :: (mid ++ [Event.LockRelease r])
      ∧ ∀ e ∈ mid, e.isLock = false)
    ∧ (app.get g1).fst ≠ ((app.get g1).snd.get g2).fst := by
  constructor
  · refine ⟨(app.get g1).fst, ?_⟩
    cases hb : (handle_guild_command u cmd env).snd with
    | ok msgs =>
      refine ⟨Event.SetMessageChannel (some mcid)
        :: ((handle_guild_command u cmd env).fst ++ [Event.SendInteraction msgs]),
        ?_, ?_⟩
      · simp [handle_command_fallable, hb]
      · intro e he
        rcases List.mem_cons.mp he with rfl | he2
        · rfl
        rcases List.mem_append.mp he2 with h3 | h3
        · exact handle_guild_command_no_lock u cmd env e h3
        · simp at h3
          subst h3
          rfl
    | error err =>
      refine ⟨Event.SetMessageChannel (some mcid) :: (handle_guild_command u cmd env).fst,
        ?_, ?_⟩
      · simp [handle_command_fallable, hb]
      · intro e he
        rcases List.mem_cons.mp he with rfl | he2
        · rfl
        · exact handle_guild_command_no_lock u cmd env e he2
  · obtain ⟨hlt, hndr, hndk⟩ := hwf
    cases h1 : lookupRef app.entries g1 with
    | some r1 =>
      rw [AppModel.get_of_lookup app g1 r1 h1]
      cases h2 : lookupRef app.entries g2 with
      | some r2 =>
        rw [AppModel.get_of_lookup app g2 r2 h2]
        intro heq
        subst heq
        have hmem1 := lookupRef_mem _ _ _ h1
        have hmem2 := lookupRef_mem _ _ _ h2
        have := List.inj_on_of_nodup_map hndr hmem1 hmem2 rfl
        exact hne (congrArg Prod.fst this)
      | none =>
        have hr1 : r1 < app.nextRef := hlt _ (lookupRef_mem _ _ _ h1)
        simp only [AppModel.get, h2]
        intro heq
        omega
    | none =>
      simp only [AppModel.get, h1]
      cases h2 : lookupRef app.entries g2 with
      | some r2 =>
        have hr2 : r2 < app.nextRef := hlt _ (lookupRef_mem _ _ _ h2)
        have h2e : lookupRef (app.entries ++ [(g1, app.nextRef)]) g2 = some r2 :=
          lookupRef_append_some _ _ _ _ h2
        simp only [AppModel.get, h2e]
        intro heq
        omega
      | none =>
        have h2e : lookupRef (app.entries ++ [(g1, app.nextRef)]) g2 = none :=
          lookupRef_append_none_ne _ _ _ _ h2 hne
        simp only [AppModel.get, h2e]
        intro heq
        omega

/-- Claim C9, witness: on the fresh registry, guilds 1 and 2 get distinct
lock cells. -/
theorem C9_witness :
    (AppModel.new.get 1).fst ≠ ((AppModel.new.get 1).snd.get 2).fst :=
  (C9 AppModel.new none 1 2 5 1 .pause envBase
    ⟨by simp [AppModel.new], by simp [AppModel.new], by simp [AppModel.new]⟩
    (by omega)).2

theorem handle_command_fallable_message_channel (app : AppModel) (mc : Option Nat)
    (g mcid u : Nat) (cmd : CommandData) (env : Env) :
    (handle_command_fallable app mc g mcid u cmd env).snd.fst = some mcid := by
  cases hb : (handle_guild_command u cmd env).snd <;>
    simp [handle_command_fallable, hb]

/-- Environments and inputs for the C10 witness. -/
def ciA : CommandInput := ⟨5, 1, .pause, envBase⟩

/-- Second command input for the C10 witness. -/
def ciB : CommandInput := ⟨7, 2, .skip, envBase⟩

/-- Claim C10: every guild command of any name sets the guild's
message_channel to the invoking command's text channel before the command
body runs; after any nonempty command sequence the recorded channel is the
last command's text channel; and the playback-ended handler posts only to
the recorded channel, posting nothing when none was ever recorded. -/
theorem C10 (app : AppModel) (mc : Option Nat) (g mcid u : Nat) (cmd : CommandData)
    (env : Env) (app0 : AppModel) (mc0 : Option Nat) (pre : List CommandInput)
    (ci : CommandInput) (stopped : Bool) (c : Nat) (env2 : Env) (mcx : Nat) :
    (∃ r tail,
      (handle_command_fallable app mc g mcid u cmd env).snd.snd.fst
        = Event.LockAcquire r :: Event.SetMessageChannel (some mcid)
          :: ((handle_guild_command u cmd env).fst ++ tail))
    ∧ (runCommands g app0 mc0 (pre ++ [ci])).snd = some ci.message_channel_id
    ∧ (∀ mc2 msgs,
        Event.SendToChannel mc2 msgs ∈ handle_playback_ended stopped none c env2 → False)
    ∧ (∀ mc2 msgs,
        Event.SendToChannel mc2 msgs ∈ handle_playback_ended stopped (some mcx) c env2 →
          mc2 = mcx) := by
  refine ⟨?_, ?_, ?_, ?_⟩
  · refine ⟨(app.get g).fst, ?_⟩
    cases hb : (handle_guild_command u cmd env).snd with
    | ok msgs =>
      exact ⟨[Event.SendInteraction msgs, Event.LockRelease (app.get g).fst],
        by simp [handle_command_fallable, hb]⟩
    | error err =>
      exact ⟨[Event.LockRelease (app.get g).fst],
        by simp [handle_command_fallable, hb]⟩
  · induction pre generalizing app0 mc0 with
    | nil =>
      simp only [List.nil_append, runCommands]
      exact handle_command_fallable_message_channel app0 mc0 g ci.message_channel_id
        ci.user_id ci.cmd ci.env
    | cons ci2 rest ih =>
      simp only [List.cons_append, runCommands]
      exact ih _ _
  · intro mc2 msgs hmem
    rcases env2 with ⟨dOk, uch, sl, vs, ne, nf, rs, act, ftp, pOk, sOk, paOk, unOk⟩
    rcases stopped <;> rcases dOk <;> rcases nf with _ | s2 <;> rcases pOk <;>
      simp [handle_playback_ended, continue_channel_playback] at hmem
  · intro mc2 msgs hmem
    rcases env2 with ⟨dOk, uch, sl, vs, ne, nf, rs, act, ftp, pOk, sOk, paOk, unOk⟩
    rcases stopped <;> rcases dOk <;> rcases nf with _ | s2 <;> rcases pOk <;>
      simp [handle_playback_ended, continue_channel_playback] at hmem <;>
      exact hmem.1

/-- Claim C10, witness: after the two-command sequence the recorded channel
is the second command's text channel. -/
theorem C10_witness :
    (runCommands 1 AppModel.new none ([ciA] ++ [ciB])).snd = some 7 :=
  (C10 AppModel.new none 1 5 1 .pause envBase AppModel.new none [ciA] ciB
    false 1 envBase 9).2.1

end Mrvn
